import Mathlib

/-!
Verification of the `aws-lambda-layer-cli` launcher
(`src/aws_lambda_layer_cli/cli.py` and `src/scripts/pypi_resources/cli.py`).

The launcher is a single-shot program: it resolves the bundled bash script,
handles the `uninstall` and `completion` subcommands, and otherwise spawns
`bash` on the script through one of three platform strategies (native POSIX,
cygpath-translated path, WSL), propagating the child's exit code.

The embedding is a pure model of one run of `main`: all interaction with the
outside world (argv, `os.name`, the filesystem, `shutil.which`, subprocess
exit codes and outputs) is collected in an `Env` record, and the observable
behaviour of a run (lines printed to stdout and stderr, child commands
spawned with inherited stdio, file-existence checks performed, and the final
`SystemExit`) is collected in a `Trace`.
-/

namespace AwsLambdaLayerCli

/-- The single-quote character (ASCII 39). -/
def squote : Char := Char.ofNat 39

/-- The backslash character (ASCII 92). -/
def bslash : Char := Char.ofNat 92

/-- How a run of `main` terminates: `raise SystemExit(n)` with an integer
exit code, or `raise SystemExit(s)` with a fatal string message (Python then
prints the message to stderr and exits 1). -/
inductive PExit where
  | code (n : Int)
  | msg (s : String)
deriving DecidableEq

/-- Everything one run of `main` reads from the outside world.
`assetsDir` abstracts the Locator's resolved assets directory (both the
packaged-resource route and the file-relative fallback produce a directory
path); `assetsParent` is its parent directory, `pathSep` the platform path
separator used by `Path./`.  `whichRes` models `shutil.which`; `cygpathExit`
and `cygpathOut` give the return code and captured stdout of the
`subprocess.run` inside `_cygpath` for a given command vector; `runExit`
gives the return code of `_run` (a child spawned with inherited stdio) for a
given command vector. -/
structure Env where
  argv : List String
  osName : String
  assetsDir : String
  assetsParent : String
  pathSep : String
  fileExists : String → Bool
  fileContent : String → String
  whichRes : String → Option String
  cygpathExit : List String → Int
  cygpathOut : List String → String
  runExit : List String → Int

/-- The observable behaviour of one run: lines printed to stdout (one entry
per `print` call), lines printed to stderr, child commands spawned with
inherited stdio (via `_run`), paths whose existence was queried, and the
final exit. -/
structure Trace where
  stdout : List String
  stderr : List String
  spawned : List (List String)
  checked : List String
  exit : PExit
deriving DecidableEq

/-- Join `dir / name` for a relative `name`: concatenation with the
platform separator. -/
def joinP (env : Env) (dir name : String) : String := dir ++ env.pathSep ++ name

/-- The resolved path of the bundled main script, `assets_dir / "aws-lambda-layer-cli"`. -/
def scriptPath (env : Env) : String := joinP env env.assetsDir "aws-lambda-layer-cli"

/-- The resolved path of the bundled uninstall script, `assets_dir / "uninstall.sh"`. -/
def uninstallScriptPath (env : Env) : String := joinP env env.assetsDir "uninstall.sh"

/-- `assets_dir.parent / "completion"`. -/
def completionDir (env : Env) : String := joinP env env.assetsParent "completion"

/-- The zsh completion asset path. -/
def zshCompletionPath (env : Env) : String :=
  joinP env (completionDir env) "aws-lambda-layer-completion.zsh"

/-- The bash completion asset path. -/
def bashCompletionPath (env : Env) : String :=
  joinP env (completionDir env) "aws-lambda-layer-completion.bash"

/-- Python truthiness of an optional string (`None` and `""` are falsy). -/
def truthyStr : Option String → Bool
  | none => false
  | some s => s != ""

/-- Python `a or b` on optional strings: `a` if truthy, else `b`. -/
def pyOrOpt (a b : Option String) : Option String :=
  if truthyStr a then a else b

theorem truthyStr_some (s : String) : truthyStr (some s) = (s != "") := rfl

/-- Embedding of `_windows_path_to_wsl` from `cli.py`, on the normalized
string form of a Windows path.  Python computes `p.drive` with
`ntpath.splitdrive` semantics: a two-character drive exists exactly when the
second character of the path is a colon (UNC drives are longer and their
second character is a backslash, so they fail the `drive[1] != ":"` test the
same way `sep = ':'` fails here).  On success the code lowercases the drive
letter, strips leading `\` and `/` from the remainder, and converts every
backslash to a forward slash. -/
def windows_path_to_wsl (s : String) : Option String :=
  match s.toList with
  | c :: sep :: rest =>
    if sep = ':' then
      some ("/mnt/" ++ String.singleton c.toLower ++ "/" ++
        String.mk ((rest.dropWhile (fun ch => ch == bslash || ch == '/')).map
          (fun ch => if ch == bslash then '/' else ch)))
    else none
  | _ => none

/-- Python `str.strip()` with no argument: remove leading and trailing
whitespace. -/
def pyStrip (s : String) : String :=
  String.mk ((((s.toList.dropWhile Char.isWhitespace).reverse.dropWhile
    Char.isWhitespace).reverse))

/-- Embedding of `_cygpath` from `cli.py`: `None` when `cygpath` is not on
the search path or its run returns non-zero, otherwise the stripped captured
stdout of `[cygpath, mode, p]`. -/
def cygpathCall (env : Env) (mode p : String) : Option String :=
  match env.whichRes "cygpath" with
  | none => none
  | some cyg =>
    if cyg = "" then none
    else if env.cygpathExit [cyg, mode, p] ≠ 0 then none
    else some (pyStrip (env.cygpathOut [cyg, mode, p]))

/-- Replacement performed by `s.replace("'", "'\\''")` on a single
character: a single quote becomes close-quote, backslash, quote, open-quote. -/
def qEsc (c : Char) : List Char :=
  if c = squote then [squote, bslash, squote, squote] else [c]

/-- Embedding of the local quoting function `q` in the WSL branch of `main`:
`"'" + s.replace("'", "'\\''") + "'"`. -/
def q (s : String) : String :=
  String.mk ([squote] ++ s.toList.flatMap qEsc ++ [squote])

/-- ANSI escape constants used by the static help text. -/
def GREEN : String := "\x1b[0;32m"

def BLUE : String := "\x1b[0;34m"

def YELLOW : String := "\x1b[0;33m"

def MAGENTA : String := "\x1b[0;35m"

def NC : String := "\x1b[0m"

def UNDERLINE : String := "\x1b[4m"

/-- The nine lines printed by the `uninstall --help` branch of `main`. -/
def uninstallUsageLines : List String :=
  [ BLUE ++ "Usage:" ++ NC
  , "  aws-lambda-layer-cli " ++ GREEN ++ "uninstall" ++ NC
  , ""
  , BLUE ++ "Description:" ++ NC
  , "  Uninstalls the AWS Lambda Layer CLI tool and removes all associated files."
  , "  This includes:"
  , "  - The CLI executable and symlinks"
  , "  - The installation directory"
  , "  - Shell completion scripts" ]

/-- The thirteen lines printed by the `completion` usage branch of `main`. -/
def completionUsageLines : List String :=
  [ BLUE ++ "Usage:" ++ NC
  , "  aws-lambda-layer-cli " ++ GREEN ++ "completion" ++ NC ++ " [options]"
  , ""
  , BLUE ++ "Options:" ++ NC
  , "  " ++ YELLOW ++ "--zsh" ++ NC ++ "     Output zsh completion script"
  , "  " ++ YELLOW ++ "--bash" ++ NC ++ "    Output bash completion script"
  , ""
  , MAGENTA ++ UNDERLINE ++ "Examples:" ++ NC
  , "  # Load completion in current shell"
  , "  source <(aws-lambda-layer-cli " ++ GREEN ++ "completion" ++ NC ++ " " ++ YELLOW ++ "--bash" ++ NC ++ ")"
  , ""
  , "  # Add to .zshrc"
  , "  aws-lambda-layer-cli " ++ GREEN ++ "completion" ++ NC ++ " " ++ YELLOW ++ "--zsh" ++ NC ++ " >> ~/.zshrc" ]

/-- The literal text matched (up to trailing whitespace) by the regex
`_aws-lambda-layer-cli "\$@"\s*$` in the zsh completion branch. -/
def autoExecMarker : String := "_aws-lambda-layer-cli \"$@\""

/-- Embedding of `re.sub(r'_aws-lambda-layer-cli "\$@"\s*$', "", content)`:
the pattern is a literal marker followed by greedy whitespace anchored at the
end of the string, so the substitution removes the marker and all trailing
whitespace after it exactly when the whitespace-right-trimmed content ends
with the marker. -/
def stripAutoExec (content : String) : String :=
  let rt := ((content.toList.reverse.dropWhile (fun c => c.isWhitespace)).reverse)
  if autoExecMarker.toList.isSuffixOf rt then
    String.mk (rt.take (rt.length - autoExecMarker.length))
  else content

/-- A child process spawned through `_run` with inherited stdio, followed by
`raise SystemExit(_run(cmd))`. -/
def runTrace (env : Env) (cmd : List String) : Trace :=
  { stdout := [], stderr := [], spawned := [cmd], checked := [], exit := .code (env.runExit cmd) }

/-- Record a file-existence query in a trace. -/
def addChecked (p : String) (t : Trace) : Trace := { t with checked := p :: t.checked }

/-- The WSL fallback at the end of `main` (strategy 3 and the final
no-strategy exit): probe `wsl.exe` then `wsl`, manually translate the script
path, build the quoted login-shell command string, and run
`[wsl, "bash", "-lc", cmd]`; a failed translation or no WSL launcher is a
fatal `SystemExit` message. -/
def windowsWsl (env : Env) (script_path : String) (args : List String) : Trace :=
  let wsl := pyOrOpt (env.whichRes "wsl.exe") (env.whichRes "wsl")
  if truthyStr wsl then
    match windows_path_to_wsl script_path with
    | none =>
      { stdout := [], stderr := [], spawned := [], checked := [],
        exit := .msg ("Unable to convert path for WSL: " ++ script_path) }
    | some wsl_path =>
      if wsl_path = "" then
        { stdout := [], stderr := [], spawned := [], checked := [],
          exit := .msg ("Unable to convert path for WSL: " ++ script_path) }
      else
        let cmd := "bash " ++ q wsl_path ++
          (if args.isEmpty then "" else " " ++ String.intercalate " " (args.map q))
        runTrace env [wsl.getD "", "bash", "-lc", cmd]
  else
    { stdout := [], stderr := [], spawned := [], checked := [],
      exit := .msg "No compatible bash found on Windows. Install WSL (recommended) or Git Bash and ensure bash is on PATH." }

/-- The platform dispatch at the end of `main`: native POSIX bash when
`os.name != "nt"`, otherwise the cygpath-translated strategy when the
translation is truthy and `bash` resolves on the search path, otherwise the
WSL fallback. -/
def dispatch (env : Env) (script_path : String) (args : List String) : Trace :=
  if env.osName ≠ "nt" then
    runTrace env ("bash" :: script_path :: args)
  else
    let posix := cygpathCall env "-u" script_path
    if truthyStr posix && truthyStr (env.whichRes "bash") then
      runTrace env ("bash" :: posix.getD "" :: args)
    else windowsWsl env script_path args

/-- The `completion` subcommand branch of `main` (entered when the current
argument list starts with `"completion"`). -/
def completionTrace (env : Env) (args : List String) : Trace :=
  let has_zsh := "--zsh" ∈ args
  let has_bash := "--bash" ∈ args
  if "--help" ∈ args ∨ "-h" ∈ args ∨ (¬has_zsh ∧ ¬has_bash) then
    { stdout := completionUsageLines, stderr := [], spawned := [], checked := [], exit := .code 0 }
  else
    let shell := if has_zsh then "zsh" else if has_bash then "bash" else ""
    if shell = "zsh" then
      if env.fileExists (zshCompletionPath env) then
        { stdout := [ stripAutoExec (env.fileContent (zshCompletionPath env))
                    , "\n# Register completion"
                    , "if type compdef &>/dev/null; then"
                    , "  compdef _aws-lambda-layer-cli aws-lambda-layer-cli"
                    , "fi" ]
        , stderr := [], spawned := [], checked := [zshCompletionPath env], exit := .code 0 }
      else
        { stdout := [], stderr := ["Completion script not found for zsh"], spawned := [],
          checked := [zshCompletionPath env], exit := .code 1 }
    else
      if env.fileExists (bashCompletionPath env) then
        { stdout := [env.fileContent (bashCompletionPath env)], stderr := [], spawned := [],
          checked := [bashCompletionPath env], exit := .code 0 }
      else
        { stdout := [], stderr := ["Completion script not found for bash"], spawned := [],
          checked := [bashCompletionPath env], exit := .code 1 }

/-- The part of `main` after the `uninstall` handling: the `completion`
branch on the (possibly verb-stripped) arguments, else the platform
dispatch on the (possibly rewritten) script target. -/
def afterUninstallStep (env : Env) (script_path : String) (args : List String) : Trace :=
  if args.head? = some "completion" then completionTrace env args
  else dispatch env script_path args

/-- The part of `main` after the main-script existence check: `uninstall`
handling (static usage on `--help`/`-h`; otherwise rewrite the script target
to `uninstall.sh`, check its existence, strip the leading verb), then the
rest of the dispatch. -/
def mainAfterScriptCheck (env : Env) (sp : String) (args : List String) : Trace :=
  if args.head? = some "uninstall" then
    if "--help" ∈ args ∨ "-h" ∈ args then
      { stdout := uninstallUsageLines, stderr := [], spawned := [], checked := [], exit := .code 0 }
    else
      let us := uninstallScriptPath env
      if env.fileExists us then
        addChecked us (afterUninstallStep env us (args.drop 1))
      else
        { stdout := [], stderr := [], spawned := [], checked := [us],
          exit := .msg ("Uninstall script missing: " ++ us) }
  else afterUninstallStep env sp args

/-- Embedding of `main` from `src/aws_lambda_layer_cli/cli.py`: resolve the
bundled script, fail fatally if it is missing, then run the subcommand
handling and platform dispatch. -/
def main (env : Env) : Trace :=
  let sp := scriptPath env
  if env.fileExists sp then
    addChecked sp (mainAfterScriptCheck env sp env.argv)
  else
    { stdout := [], stderr := [], spawned := [], checked := [sp],
      exit := .msg ("Packaged script missing: " ++ sp) }

/-! ### Helper lemmas -/

/-- The uninstall script path and the main script path always differ (their
final components have different lengths). -/
theorem uninstallScriptPath_ne_scriptPath (env : Env) :
    uninstallScriptPath env ≠ scriptPath env := by
  intro h
  have hlen := congrArg String.length h
  simp only [uninstallScriptPath, scriptPath, joinP, String.length_append] at hlen
  rw [show ("uninstall.sh" : String).length = 12 from rfl,
    show ("aws-lambda-layer-cli" : String).length = 20 from rfl] at hlen
  omega

/-- The completion branch never spawns a child process. -/
theorem completionTrace_spawned (env : Env) (args : List String) :
    (completionTrace env args).spawned = [] := by
  simp only [completionTrace]
  repeat' split
  all_goals rfl

/-- The completion branch always terminates with exit code 0 or 1. -/
theorem completionTrace_exit (env : Env) (args : List String) :
    (completionTrace env args).exit = PExit.code 0 ∨ (completionTrace env args).exit = PExit.code 1 := by
  simp only [completionTrace]
  repeat' split
  all_goals simp

/-! ### Witness environments -/

/-- A POSIX environment where every file exists and every child exits 7. -/
def envPosix : Env :=
  { argv := ["a b", "c"]
    osName := "posix"
    assetsDir := "/opt/assets"
    assetsParent := "/opt"
    pathSep := "/"
    fileExists := fun _ => true
    fileContent := fun _ => ""
    whichRes := fun _ => none
    cygpathExit := fun _ => 1
    cygpathOut := fun _ => ""
    runExit := fun _ => 7 }

/-- A POSIX environment where no file exists. -/
def envNoScript : Env := { envPosix with fileExists := fun _ => false }

/-! ### C9 — missing bundled script is fatal, before any spawn -/

/-- C9: whenever the bundled main script does not exist in the resolved
assets directory, `main` terminates with the fatal message reporting the
expected path, and no child process is spawned at any point of the run. -/
theorem spec_c9_missing_script_fatal (env : Env)
    (h : env.fileExists (scriptPath env) = false) :
    (main env).exit = PExit.msg ("Packaged script missing: " ++ scriptPath env) ∧
    (main env).spawned = [] := by
  simp [main, h]

/-- Witness for C9 at a concrete environment with no files. -/
theorem spec_c9_missing_script_fatal_witness :
    envNoScript.fileExists (scriptPath envNoScript) = false ∧
    ((main envNoScript).exit = PExit.msg ("Packaged script missing: " ++ scriptPath envNoScript) ∧
      (main envNoScript).spawned = []) :=
  ⟨rfl, spec_c9_missing_script_fatal envNoScript rfl⟩

/-! ### C2 — native POSIX invocation forwards arguments verbatim -/

/-- C2: on every non-Windows platform, when the subcommand dispatch does not
intercept (the first argument is neither `uninstall` nor `completion`) and
the bundled script exists, the launcher spawns exactly the command vector
`["bash", script path, args...]` with the caller's arguments unmodified and
in order, and exits with that child's exit code. -/
theorem spec_c2_posix_direct_bash (env : Env)
    (hos : env.osName ≠ "nt")
    (hex : env.fileExists (scriptPath env) = true)
    (hu : env.argv.head? ≠ some "uninstall")
    (hc : env.argv.head? ≠ some "completion") :
    (main env).spawned = ["bash" :: scriptPath env :: env.argv] ∧
    (main env).exit = PExit.code (env.runExit ("bash" :: scriptPath env :: env.argv)) := by
  simp [main, mainAfterScriptCheck, afterUninstallStep, dispatch, runTrace, addChecked,
    hex, hu, hc, hos]

/-- Witness for C2 at a concrete POSIX environment. -/
theorem spec_c2_posix_direct_bash_witness :
    (envPosix.osName ≠ "nt" ∧ envPosix.fileExists (scriptPath envPosix) = true ∧
      envPosix.argv.head? ≠ some "uninstall" ∧ envPosix.argv.head? ≠ some "completion") ∧
    ((main envPosix).spawned = ["bash" :: scriptPath envPosix :: envPosix.argv] ∧
      (main envPosix).exit = PExit.code (envPosix.runExit ("bash" :: scriptPath envPosix :: envPosix.argv))) :=
  ⟨⟨by decide, rfl, by decide, by decide⟩,
    spec_c2_posix_direct_bash envPosix (by decide) rfl (by decide) (by decide)⟩

/-! ### C8 — `uninstall --help` prints usage, exits 0, touches nothing -/

/-- A POSIX environment invoked as `uninstall --help`. -/
def envUninstallHelp : Env := { envPosix with argv := ["uninstall", "--help"] }

/-- C8: for every argument vector starting with `uninstall` that contains
`--help` or `-h` (in an environment where the bundled main script exists, so
the run reaches the subcommand handling), `main` prints exactly the static
usage block to stdout, exits with code 0, spawns no child process, queries
the existence of no path other than the main script, and in particular never
checks the uninstall script's existence. -/
theorem spec_c8_uninstall_help (env : Env)
    (hex : env.fileExists (scriptPath env) = true)
    (hhead : env.argv.head? = some "uninstall")
    (hhelp : "--help" ∈ env.argv ∨ "-h" ∈ env.argv) :
    (main env).stdout = uninstallUsageLines ∧
    (main env).exit = PExit.code 0 ∧
    (main env).spawned = [] ∧
    (main env).checked = [scriptPath env] ∧
    uninstallScriptPath env ∉ (main env).checked := by
  have hmain : main env =
      addChecked (scriptPath env)
        { stdout := uninstallUsageLines, stderr := [], spawned := [], checked := [],
          exit := .code 0 } := by
    simp [main, mainAfterScriptCheck, hex, hhead, hhelp]
  rw [hmain]
  refine ⟨rfl, rfl, rfl, rfl, ?_⟩
  simp [addChecked, uninstallScriptPath_ne_scriptPath env]

/-- Witness for C8 at a concrete environment with argv `["uninstall", "--help"]`. -/
theorem spec_c8_uninstall_help_witness :
    ((envUninstallHelp.fileExists (scriptPath envUninstallHelp) = true) ∧
      envUninstallHelp.argv.head? = some "uninstall" ∧
      ("--help" ∈ envUninstallHelp.argv ∨ "-h" ∈ envUninstallHelp.argv)) ∧
    ((main envUninstallHelp).stdout = uninstallUsageLines ∧
      (main envUninstallHelp).exit = PExit.code 0 ∧
      (main envUninstallHelp).spawned = [] ∧
      (main envUninstallHelp).checked = [scriptPath envUninstallHelp] ∧
      uninstallScriptPath envUninstallHelp ∉ (main envUninstallHelp).checked) :=
  ⟨⟨rfl, by decide, by decide⟩,
    spec_c8_uninstall_help envUninstallHelp rfl (by decide) (by decide)⟩

/-! ### C1 — exit-code fidelity -/

/-- A trace in which every spawned child command determines the final exit:
the run terminates with exactly the child's return code. -/
def ExitFidelity (env : Env) (t : Trace) : Prop :=
  ∀ cmd ∈ t.spawned, t.exit = PExit.code (env.runExit cmd)

theorem exitFidelity_runTrace (env : Env) (cmd : List String) :
    ExitFidelity env (runTrace env cmd) := by
  intro c hc
  simp only [runTrace, List.mem_singleton] at hc ⊢
  rw [hc]

theorem exitFidelity_addChecked (env : Env) (p : String) (t : Trace)
    (h : ExitFidelity env t) : ExitFidelity env (addChecked p t) := by
  intro c hc
  exact h c hc

theorem exitFidelity_of_no_spawn (env : Env) (t : Trace) (h : t.spawned = []) :
    ExitFidelity env t := by
  intro c hc
  rw [h] at hc
  simp at hc

theorem exitFidelity_windowsWsl (env : Env) (sp : String) (args : List String) :
    ExitFidelity env (windowsWsl env sp args) := by
  simp only [windowsWsl]
  split
  · split
    · exact exitFidelity_of_no_spawn env _ rfl
    · split
      · exact exitFidelity_of_no_spawn env _ rfl
      · exact exitFidelity_runTrace env _
  · exact exitFidelity_of_no_spawn env _ rfl

theorem exitFidelity_dispatch (env : Env) (sp : String) (args : List String) :
    ExitFidelity env (dispatch env sp args) := by
  simp only [dispatch]
  split
  · exact exitFidelity_runTrace env _
  · split
    · exact exitFidelity_runTrace env _
    · exact exitFidelity_windowsWsl env _ _

theorem exitFidelity_afterUninstallStep (env : Env) (sp : String) (args : List String) :
    ExitFidelity env (afterUninstallStep env sp args) := by
  simp only [afterUninstallStep]
  split
  · exact exitFidelity_of_no_spawn env _ (completionTrace_spawned env args)
  · exact exitFidelity_dispatch env _ _

theorem exitFidelity_mainAfterScriptCheck (env : Env) (sp : String) (args : List String) :
    ExitFidelity env (mainAfterScriptCheck env sp args) := by
  simp only [mainAfterScriptCheck]
  split
  · split
    · exact exitFidelity_of_no_spawn env _ rfl
    · split
      · exact exitFidelity_addChecked env _ _ (exitFidelity_afterUninstallStep env _ _)
      · exact exitFidelity_of_no_spawn env _ rfl
  · exact exitFidelity_afterUninstallStep env _ _

/-- C1: exit-code fidelity — for every environment (hence every selected
strategy and every argument vector), whenever the run spawned a child
command, the launcher's own exit is exactly that child's return code,
untranslated; in particular a child exit of 7 yields a launcher exit of 7. -/
theorem spec_c1_exit_code_fidelity (env : Env) (cmd : List String)
    (h : cmd ∈ (main env).spawned) :
    (main env).exit = PExit.code (env.runExit cmd) := by
  have hm : ExitFidelity env (main env) := by
    simp only [main]
    split
    · exact exitFidelity_addChecked env _ _ (exitFidelity_mainAfterScriptCheck env _ _)
    · exact exitFidelity_of_no_spawn env _ rfl
  exact hm cmd h

/-- Witness for C1: in `envPosix` every child exits 7 and the spawned bash
command yields a launcher exit of exactly 7. -/
theorem spec_c1_exit_code_fidelity_witness :
    ["bash", "/opt/assets/aws-lambda-layer-cli", "a b", "c"] ∈ (main envPosix).spawned ∧
    (main envPosix).exit = PExit.code 7 :=
  ⟨by decide,
    spec_c1_exit_code_fidelity envPosix
      ["bash", "/opt/assets/aws-lambda-layer-cli", "a b", "c"] (by decide)⟩

/-! ### C3 — strict strategy priority: cygpath translation beats WSL -/

/-- A Windows environment where cygpath, bash and a WSL launcher are all
present and the translation succeeds. -/
def envWin : Env :=
  { argv := ["a b", "c"]
    osName := "nt"
    assetsDir := "C:\\assets"
    assetsParent := "C:"
    pathSep := "\\"
    fileExists := fun _ => true
    fileContent := fun _ => ""
    whichRes := fun n =>
      if n == "cygpath" then some "C:\\cygpath.exe"
      else if n == "bash" then some "C:\\bash.exe"
      else if n == "wsl.exe" then some "C:\\wsl.exe"
      else none
    cygpathExit := fun _ => 0
    cygpathOut := fun _ => "/c/assets/aws-lambda-layer-cli\n"
    runExit := fun _ => 7 }

/-- C3: on Windows, when the subcommand dispatch does not intercept, the
cygpath utility is present (truthy), its run on the script path returns zero
with non-empty stripped output, and `bash` resolves on the search path, the
run spawns exactly the translated-path bash command — so the WSL strategy is
never attempted, whatever the WSL probes would return. -/
theorem spec_c3_cygpath_beats_wsl (env : Env)
    (hos : env.osName = "nt")
    (hex : env.fileExists (scriptPath env) = true)
    (hu : env.argv.head? ≠ some "uninstall")
    (hc : env.argv.head? ≠ some "completion")
    (cyg : String) (hcyg : env.whichRes "cygpath" = some cyg) (hcne : cyg ≠ "")
    (hzero : env.cygpathExit [cyg, "-u", scriptPath env] = 0)
    (hout : pyStrip (env.cygpathOut [cyg, "-u", scriptPath env]) ≠ "")
    (hbash : truthyStr (env.whichRes "bash") = true) :
    (main env).spawned = ["bash" :: pyStrip (env.cygpathOut [cyg, "-u", scriptPath env]) :: env.argv] ∧
    (main env).exit =
      PExit.code (env.runExit ("bash" :: pyStrip (env.cygpathOut [cyg, "-u", scriptPath env]) :: env.argv)) := by
  have hcp : cygpathCall env "-u" (scriptPath env) =
      some (pyStrip (env.cygpathOut [cyg, "-u", scriptPath env])) := by
    simp [cygpathCall, hcyg, hcne, hzero]
  simp [main, mainAfterScriptCheck, afterUninstallStep, dispatch, runTrace, addChecked,
    hex, hu, hc, hos, hcp, truthyStr_some, hout, hbash]

/-- Witness for C3 at `envWin`, where a WSL launcher is also present. -/
theorem spec_c3_cygpath_beats_wsl_witness :
    truthyStr (envWin.whichRes "wsl.exe") = true ∧
    (main envWin).spawned = [["bash", "/c/assets/aws-lambda-layer-cli", "a b", "c"]] ∧
    (main envWin).exit = PExit.code 7 := by
  have h := spec_c3_cygpath_beats_wsl envWin rfl rfl (by decide) (by decide)
    "C:\\cygpath.exe" rfl (by decide) rfl (by decide) (by decide)
  exact ⟨by decide, h.1.trans (by decide), h.2.trans (by decide)⟩

/-! ### C4 — manual WSL path translation -/

/-- A path (in normalized Windows string form) has a two-character drive in
the `ntpath.splitdrive` sense exactly when its second character is a colon;
this is the condition `_windows_path_to_wsl` actually tests. -/
def driveColon (s : String) : Bool :=
  match s.toList with
  | _ :: c2 :: _ => c2 == ':'
  | _ => false

/-- The shape `<Letter>:\\...` named by the claim: an alphabetic drive
letter, a colon, and a backslash. -/
def letterDriveBackslash (s : String) : Bool :=
  match s.toList with
  | c1 :: c2 :: c3 :: _ => c1.isAlpha && c2 == ':' && c3 == bslash
  | _ => false

/-- On any drive-shaped input the translator lowercases the drive letter,
strips leading separators from the remainder and converts backslashes. -/
theorem windows_path_to_wsl_drive (c : Char) (rest : List Char) :
    windows_path_to_wsl (String.mk (c :: ':' :: rest)) =
      some ("/mnt/" ++ String.singleton c.toLower ++ "/" ++
        String.mk ((rest.dropWhile (fun ch => ch == bslash || ch == '/')).map
          (fun ch => if ch == bslash then '/' else ch))) := rfl

/-- Without a `<char>:` drive the translator reports no conversion. -/
theorem windows_path_to_wsl_none_of_not_driveColon (s : String)
    (h : driveColon s = false) : windows_path_to_wsl s = none := by
  unfold driveColon at h
  unfold windows_path_to_wsl
  rcases hl : s.toList with _ | ⟨a, tl⟩
  · rfl
  · rcases tl with _ | ⟨b, rest⟩
    · rfl
    · rw [hl] at h
      have hb : ¬ b = ':' := by simpa using h
      simp [hb]

/-- Counterexample to C4 as stated: the input `C:x` has a drive letter but
no backslash after the colon — so it is not of the form `<Letter>:\\...` —
yet the translator converts it to `/mnt/c/x` instead of returning no
conversion, because the code only tests `p.drive`. -/
theorem spec_c4_counterexample :
    letterDriveBackslash "C:x" = false ∧
    windows_path_to_wsl "C:x" = some "/mnt/c/x" := by decide

/-- C4 (amended): the translator keys on the two-character drive `<char>:`
(second character a colon), not on the full shape `<Letter>:\\...`: every
input with such a drive — a backslash after the colon is not required — is
converted to `/mnt/<lowercased first character>/<remainder with leading
separators stripped and every backslash turned into a forward slash>`, and
every input without such a drive returns no conversion; in particular
`C:\\Users\\me\\x` yields exactly `/mnt/c/Users/me/x`. -/
theorem spec_c4_wsl_path_translation (c : Char) (rest : List Char) (s : String)
    (h : driveColon s = false) :
    windows_path_to_wsl (String.mk (c :: ':' :: rest)) =
      some ("/mnt/" ++ String.singleton c.toLower ++ "/" ++
        String.mk ((rest.dropWhile (fun ch => ch == bslash || ch == '/')).map
          (fun ch => if ch == bslash then '/' else ch))) ∧
    windows_path_to_wsl s = none ∧
    windows_path_to_wsl "C:\\Users\\me\\x" = some "/mnt/c/Users/me/x" :=
  ⟨windows_path_to_wsl_drive c rest, windows_path_to_wsl_none_of_not_driveColon s h,
    by decide⟩

/-- Witness for the amended C4 at concrete inputs. -/
theorem spec_c4_wsl_path_translation_witness :
    driveColon "relative/path" = false ∧
    (windows_path_to_wsl (String.mk ['C', ':']) = some "/mnt/c/" ∧
      windows_path_to_wsl "relative/path" = none ∧
      windows_path_to_wsl "C:\\Users\\me\\x" = some "/mnt/c/Users/me/x") := by
  have h := spec_c4_wsl_path_translation 'C' [] "relative/path" (by decide)
  exact ⟨by decide, h.1.trans (by decide), h.2.1, h.2.2⟩

/-! ### C5 — WSL command-string quoting -/

/-- The quoting transformation exactly as the spec words it, written as a
character recursion: wrap in single quotes, and replace each embedded single
quote by close-quote, backslash, quote, open-quote. -/
def qSpecBody : List Char → List Char
  | [] => []
  | c :: cs => (if c = squote then [squote, bslash, squote, squote] else [c]) ++ qSpecBody cs

/-- The spec-worded quoting function, to compare against the code's `q`. -/
def qSpec (s : String) : String :=
  String.mk (squote :: (qSpecBody s.toList ++ [squote]))

/-- C5: for every token, the code's quoting function agrees with the
spec-worded transformation (single-quote wrapping with each embedded single
quote replaced by the four-character sequence close-quote, backslash, quote,
open-quote); in particular the token `it's` becomes exactly `'it'\''s'`. -/
theorem spec_c5_wsl_quoting :
    (∀ s : String, q s = qSpec s) ∧
    q (String.mk ['i', 't', squote, 's']) =
      String.mk [squote, 'i', 't', squote, bslash, squote, squote, 's', squote] := by
  constructor
  · intro s
    have hbody : ∀ l : List Char, l.flatMap qEsc = qSpecBody l := by
      intro l
      induction l with
      | nil => rfl
      | cons c cs ih => simp [qSpecBody, qEsc, ih]
    simp [q, qSpec, hbody]
  · decide

/-! ### C6 — Windows, WSL present, but the script path has no drive -/

/-- A Windows environment with only a WSL launcher on the search path and a
script path with no drive prefix. -/
def envC6 : Env :=
  { argv := []
    osName := "nt"
    assetsDir := "assets"
    assetsParent := ""
    pathSep := "\\"
    fileExists := fun p => p == "assets\\aws-lambda-layer-cli"
    fileContent := fun _ => ""
    whichRes := fun n => if n == "wsl.exe" then some "C:\\Windows\\wsl.exe" else none
    cygpathExit := fun _ => 1
    cygpathOut := fun _ => ""
    runExit := fun _ => 0 }

/-- The fatal message of the final no-strategy branch of `main`. -/
def noStrategyMsg : String :=
  "No compatible bash found on Windows. Install WSL (recommended) or Git Bash and ensure bash is on PATH."

/-- Counterexample to C6 as stated: on Windows with a WSL launcher present
and a script path with no drive-letter prefix (and the translated-path
strategy not applicable), the run terminates with the message
`Unable to convert path for WSL: <script path>` — not with the fatal
message instructing the operator to install WSL or Git Bash, which the
code only emits when no WSL launcher is found at all. -/
theorem spec_c6_counterexample :
    truthyStr (envC6.whichRes "wsl.exe") = true ∧
    letterDriveBackslash (scriptPath envC6) = false ∧
    (main envC6).exit = PExit.msg ("Unable to convert path for WSL: " ++ scriptPath envC6) ∧
    (main envC6).exit ≠ PExit.msg noStrategyMsg := by decide

/-- C6 (amended): on Windows, when the subcommand dispatch does not
intercept, the translated-path strategy does not apply, a WSL launcher is
present, and the script path has no `<char>:` drive prefix, the WindowsWsl
strategy fails with no conversion and the run terminates fatally with the
message `Unable to convert path for WSL: <script path>` (not the
install-WSL-or-Git-Bash message, which is reserved for the case where no
WSL launcher exists), spawning no child process. -/
theorem spec_c6_wsl_no_drive_fatal (env : Env)
    (hos : env.osName = "nt")
    (hex : env.fileExists (scriptPath env) = true)
    (hu : env.argv.head? ≠ some "uninstall")
    (hc : env.argv.head? ≠ some "completion")
    (hcyg : (truthyStr (cygpathCall env "-u" (scriptPath env)) &&
      truthyStr (env.whichRes "bash")) = false)
    (hwsl : truthyStr (pyOrOpt (env.whichRes "wsl.exe") (env.whichRes "wsl")) = true)
    (hdrive : driveColon (scriptPath env) = false) :
    (main env).spawned = [] ∧
    (main env).exit = PExit.msg ("Unable to convert path for WSL: " ++ scriptPath env) := by
  have hnone := windows_path_to_wsl_none_of_not_driveColon _ hdrive
  simp [main, mainAfterScriptCheck, afterUninstallStep, dispatch, windowsWsl, addChecked,
    hex, hu, hc, hos, hcyg, hwsl, hnone]

/-- Witness for the amended C6 at `envC6`. -/
theorem spec_c6_wsl_no_drive_fatal_witness :
    (main envC6).spawned = [] ∧
    (main envC6).exit = PExit.msg ("Unable to convert path for WSL: " ++ scriptPath envC6) :=
  spec_c6_wsl_no_drive_fatal envC6 rfl (by decide) (by decide) (by decide) (by decide)
    (by decide) (by decide)

/-! ### C7 — completion with a missing asset exits 1 on stderr -/

/-- A POSIX environment invoked as `completion --bash` in which only the
main script exists. -/
def envComplMiss : Env :=
  { envPosix with
    argv := ["completion", "--bash"]
    fileExists := fun p => p == "/opt/assets/aws-lambda-layer-cli" }

/-- C7: for every invocation of `completion` requesting a shell (`--zsh` or
`--bash`, without `--help`/`-h`) whose expected completion asset file does
not exist, the run exits with code 1, writes the error message to the error
stream, writes nothing to standard output, and spawns no child process. -/
theorem spec_c7_completion_missing_asset (env : Env)
    (hex : env.fileExists (scriptPath env) = true)
    (hhead : env.argv.head? = some "completion")
    (hh1 : "--help" ∉ env.argv) (hh2 : "-h" ∉ env.argv)
    (hshell : "--zsh" ∈ env.argv ∨ "--bash" ∈ env.argv)
    (hfile : env.fileExists (if "--zsh" ∈ env.argv then zshCompletionPath env
      else bashCompletionPath env) = false) :
    (main env).exit = PExit.code 1 ∧ (main env).stdout = [] ∧ (main env).spawned = [] ∧
    (main env).stderr = [if "--zsh" ∈ env.argv then "Completion script not found for zsh"
      else "Completion script not found for bash"] := by
  have hu : env.argv.head? ≠ some "uninstall" := by rw [hhead]; simp
  by_cases hz : "--zsh" ∈ env.argv
  · rw [if_pos hz] at hfile
    simp [main, mainAfterScriptCheck, afterUninstallStep, completionTrace, addChecked,
      hex, hu, hhead, hh1, hh2, hz, hfile]
  · have hb : "--bash" ∈ env.argv := hshell.resolve_left hz
    rw [if_neg hz] at hfile
    simp [main, mainAfterScriptCheck, afterUninstallStep, completionTrace, addChecked,
      hex, hu, hhead, hh1, hh2, hz, hb, hfile]

/-- Witness for C7 at `envComplMiss`. -/
theorem spec_c7_completion_missing_asset_witness :
    (main envComplMiss).exit = PExit.code 1 ∧ (main envComplMiss).stdout = [] ∧
    (main envComplMiss).spawned = [] ∧
    (main envComplMiss).stderr = [if "--zsh" ∈ envComplMiss.argv
      then "Completion script not found for zsh" else "Completion script not found for bash"] :=
  spec_c7_completion_missing_asset envComplMiss (by decide) (by decide) (by decide)
    (by decide) (Or.inr (by decide)) (by decide)

/-! ### C10 — `uninstall completion` is handled by the completion branch -/

/-- A POSIX environment invoked as `uninstall completion` where every file
exists. -/
def envUC : Env := { envPosix with argv := ["uninstall", "completion"] }

/-- C10: for every argument vector starting with `uninstall completion` and
containing neither `--help` nor `-h` (with both bundled scripts present),
the uninstall handling rewrites the script target and checks the uninstall
script's existence, but the completion branch then handles the run: no
child process is ever spawned — the uninstall script is never executed —
and the run exits via the completion branch with code 0 or 1. -/
theorem spec_c10_uninstall_completion (env : Env) (rest : List String)
    (hargs : env.argv = "uninstall" :: "completion" :: rest)
    (hh1 : "--help" ∉ env.argv) (hh2 : "-h" ∉ env.argv)
    (hex : env.fileExists (scriptPath env) = true)
    (hus : env.fileExists (uninstallScriptPath env) = true) :
    (main env).spawned = [] ∧
    uninstallScriptPath env ∈ (main env).checked ∧
    ((main env).exit = PExit.code 0 ∨ (main env).exit = PExit.code 1) := by
  have hmain : main env =
      addChecked (scriptPath env) (addChecked (uninstallScriptPath env)
        (completionTrace env ("completion" :: rest))) := by
    rw [hargs] at hh1 hh2
    simp [main, mainAfterScriptCheck, afterUninstallStep, hex, hus, hargs, hh1, hh2]
  rw [hmain]
  refine ⟨?_, ?_, ?_⟩
  · simpa [addChecked] using completionTrace_spawned env ("completion" :: rest)
  · simp [addChecked]
  · simpa [addChecked] using completionTrace_exit env ("completion" :: rest)

/-- Witness for C10 at `envUC`. -/
theorem spec_c10_uninstall_completion_witness :
    (main envUC).spawned = [] ∧
    uninstallScriptPath envUC ∈ (main envUC).checked ∧
    ((main envUC).exit = PExit.code 0 ∨ (main envUC).exit = PExit.code 1) :=
  spec_c10_uninstall_completion envUC [] rfl (by decide) (by decide) rfl rfl

end AwsLambdaLayerCli
